import Mathlib

/-!
# Verification of the Charizard-Fly game core

Shallow embedding of the game's core simulation (`src/App.tsx` together with
`constants.ts` / `types.ts`) and proofs about it.

Modelling choices:
* JavaScript numbers are modelled as exact rationals (`ℚ`); all arithmetic in
  the simulation is on small decimal constants, so `ℚ` reproduces it exactly.
* The React component state (`useState` hooks and their mirroring refs) is
  collected into one structure `AppState`.  The `setXxx` render-sync calls and
  the high-score persistence are presentation/storage concerns outside the
  simulated core and carry no simulation state of their own.
* `setTimeout` side effects are modelled by a counter `armedTimers` that counts
  how many invulnerability-expiry timers have ever been armed; the timer
  callback itself is the event `expireInvuln`.
* DOM measurements (`clientWidth`/`clientHeight`) are integers; a missing
  container ref is an `Option.none` argument.
* `Math.random()` draws and the two clocks (the animation-frame timestamp
  `time` and `Date.now()`) are explicit inputs of the tick function `update`.
* The repository contains two revisions of `constants.ts` (BIRD_SIZE 72 and
  64); we use 72, the revision whose comment marks it as the later increase.
  No theorem below depends on the particular value.
-/

set_option maxRecDepth 100000

/-- constants.ts: gravity acceleration per normalized frame. -/
def GRAVITY : ℚ := 0.6

/-- constants.ts: velocity assigned by a jump impulse. -/
def JUMP_STRENGTH : ℚ := -8

/-- constants.ts: horizontal obstacle speed per normalized frame. -/
def OBSTACLE_SPEED : ℚ := 3.5

/-- constants.ts: obstacle pillar width. -/
def OBSTACLE_WIDTH : ℚ := 64

/-- constants.ts: vertical gap between the top and bottom pillars. -/
def OBSTACLE_GAP : ℚ := 240

/-- constants.ts: horizontal distance between successive spawns. -/
def OBSTACLE_INTERVAL : ℚ := 300

/-- constants.ts: nominal character sprite size used by the hitbox. -/
def BIRD_SIZE : ℚ := 72

/-- constants.ts: starting number of lives. -/
def TOTAL_LIVES : ℤ := 3

/-- constants.ts: invulnerability window in milliseconds. -/
def INVULNERABILITY_TIME : ℚ := 2000

/-- types.ts: the session phase enum. -/
inductive GameState where
  | START
  | PLAYING
  | GAME_OVER
deriving DecidableEq, Repr

/-- types.ts: one obstacle pair (top pillar of height `topHeight`, bottom
pillar starting at `topHeight + OBSTACLE_GAP`). -/
structure Obstacle where
  id : ℚ
  x : ℚ
  topHeight : ℚ
  width : ℚ
  passed : Bool
deriving DecidableEq, Repr

/-- App.tsx: the component's simulation state (the `useState` hooks and the
refs that mirror them, plus `lastTimeRef`; `armedTimers` counts the
`setTimeout` calls that arm an invulnerability-expiry timer). -/
structure AppState where
  gameState : GameState
  score : ℕ
  lives : ℤ
  charY : ℚ
  velocity : ℚ
  obstacles : List Obstacle
  isInvulnerable : Bool
  lastTime : ℚ
  armedTimers : ℕ
deriving DecidableEq, Repr

/-- App.tsx `checkCollision` (lines 21–47): pure collision predicate. -/
def checkCollision (charY : ℚ) (obstacles : List Obstacle)
    (gameHeight gameWidth : ℚ) : Bool :=
  let charX := gameWidth / 2 - BIRD_SIZE / 2
  let hitBoxPadding : ℚ := 12
  let charLeft := charX + hitBoxPadding
  let charRight := charX + BIRD_SIZE - hitBoxPadding
  let charTop := charY + hitBoxPadding
  let charBottom := charY + BIRD_SIZE - hitBoxPadding
  if charY < 0 ∨ charBottom > gameHeight then
    true
  else
    obstacles.any fun obs =>
      let obsRight := obs.x + OBSTACLE_WIDTH
      decide (charRight > obs.x ∧ charLeft < obsRight) &&
        decide (charTop < obs.topHeight ∨ charBottom > obs.topHeight + OBSTACLE_GAP)

/-- App.tsx `takeDamage` (lines 103–126), with `endGame` (lines 128–135)
inlined at its single call site.  `endGame`'s high-score persistence is a
storage concern with no effect on simulation state; its
`cancelAnimationFrame` is modelled by the phase guard at the top of
`update`. -/
def takeDamage (s : AppState) : AppState :=
  if s.isInvulnerable then s
  else
    let lives1 := s.lives - 1
    if lives1 ≤ 0 then
      { s with lives := lives1, gameState := GameState.GAME_OVER }
    else
      { s with lives := lives1, isInvulnerable := true, velocity := -5,
               armedTimers := s.armedTimers + 1 }

/-- App.tsx `jump` (lines 97–101). -/
def jump (s : AppState) : AppState :=
  if s.gameState ≠ GameState.PLAYING then s
  else { s with velocity := JUMP_STRENGTH }

/-- App.tsx lines 121–124: the `setTimeout` callback that clears
invulnerability after `INVULNERABILITY_TIME`. -/
def expireInvuln (s : AppState) : AppState :=
  { s with isInvulnerable := false }

/-- App.tsx `resetGame` (lines 137–154): the state it installs (both the
hooks and the refs), parameterized by the `performance.now()` reading `t0`. -/
def resetGame (t0 : ℚ) : AppState :=
  { gameState := GameState.PLAYING
    score := 0
    lives := TOTAL_LIVES
    charY := 300
    velocity := 0
    obstacles := []
    isInvulnerable := false
    lastTime := t0
    armedTimers := 0 }

/-- App.tsx `getContainerDimensions` (lines 156–164): the measured
`clientWidth`/`clientHeight` when the container ref is non-null, otherwise
the fixed fallback 400×600.  The guard tests only nullness of the ref;
a present measurement is returned as-is, whatever its size. -/
def getContainerDimensions (measured : Option (ℤ × ℤ)) : ℤ × ℤ :=
  match measured with
  | some d => d
  | none => (400, 600)

/-- App.tsx `update` lines 181–205: move obstacles, drop off-screen ones,
spawn a new one when the track is empty or the last obstacle is far enough
from the right edge.  `now` is the `Date.now()` reading, `r` the
`Math.random()` draw. -/
def advanceObstacles (dt now r w h : ℚ) (obstacles : List Obstacle) :
    List Obstacle :=
  let moved := obstacles.map fun o => { o with x := o.x - OBSTACLE_SPEED * dt }
  let kept := moved.filter fun o => decide (o.x + OBSTACLE_WIDTH > -100)
  let spawnNeeded :=
    match kept.getLast? with
    | none => true
    | some last => decide (w - last.x > OBSTACLE_INTERVAL)
  if spawnNeeded then
    let minHeight : ℚ := 80
    let maxHeight := h - OBSTACLE_GAP - minHeight
    let randomHeight := ((⌊r * (maxHeight - minHeight + 1)⌋ : ℤ) : ℚ) + minHeight
    kept ++ [{ id := now, x := w + 50, topHeight := randomHeight,
               width := OBSTACLE_WIDTH, passed := false }]
  else kept

/-- App.tsx `update` lines 213–219: the scoring pass.  Mirrors the `forEach`
that marks each not-yet-passed obstacle whose right edge is left of
`containerWidth / 2 - BIRD_SIZE / 2` and bumps the score for each. -/
def scorePass (w : ℚ) : List Obstacle → ℕ → List Obstacle × ℕ
  | [], score => ([], score)
  | o :: rest, score =>
    if o.passed = false ∧ o.x + OBSTACLE_WIDTH < w / 2 - BIRD_SIZE / 2 then
      let p := scorePass w rest (score + 1)
      ({ o with passed := true } :: p.1, p.2)
    else
      let p := scorePass w rest score
      (o :: p.1, p.2)

/-- App.tsx `update` (lines 167–227): one simulation tick.  `time` is the
animation-frame timestamp, `now` the `Date.now()` reading, `r` the
`Math.random()` draw, `measured` the container measurement (none when the
ref is null). -/
def update (time now r : ℚ) (measured : Option (ℤ × ℤ)) (s : AppState) :
    AppState :=
  if s.gameState ≠ GameState.PLAYING then s
  else
    let deltaTime := time - s.lastTime
    let dt := min deltaTime 32 / 16.66
    let dims := getContainerDimensions measured
    let containerWidth : ℚ := dims.1
    let containerHeight : ℚ := dims.2
    let velocity1 := s.velocity + GRAVITY * dt
    let charY1 := s.charY + velocity1 * dt
    let obstacles2 := advanceObstacles dt now r containerWidth containerHeight s.obstacles
    let s1 := { s with velocity := velocity1, charY := charY1,
                       obstacles := obstacles2, lastTime := time }
    let s2 := if checkCollision charY1 obstacles2 containerHeight containerWidth
              then takeDamage s1 else s1
    let p := scorePass containerWidth s2.obstacles s2.score
    { s2 with obstacles := p.1, score := p.2 }

/-- One externally triggered transition of the session: a tick, a jump
request, or the invulnerability timer firing. -/
inductive Step : AppState → AppState → Prop where
  | tick (time now r : ℚ) (measured : Option (ℤ × ℤ)) (s : AppState) :
      Step s (update time now r measured s)
  | jump (s : AppState) : Step s (jump s)
  | expire (s : AppState) : Step s (expireInvuln s)

/-- States reachable within one session (started by `resetGame`, then any
sequence of ticks, jumps and timer expiries). -/
inductive Reachable : AppState → Prop where
  | init (t0 : ℚ) : Reachable (resetGame t0)
  | step {s s' : AppState} : Reachable s → Step s s' → Reachable s'

/-- The lives/phase safety invariant maintained by every session step. -/
def LivesInv (s : AppState) : Prop :=
  0 ≤ s.lives ∧ s.lives ≤ TOTAL_LIVES ∧
  (s.gameState = GameState.PLAYING → 1 ≤ s.lives) ∧
  (s.lives = 0 → s.gameState = GameState.GAME_OVER)

/-- A session run of 102 ticks, 16.66 ms apart, over a 400×1000000 playfield,
during which every `Date.now()` reading returns the same value 1000 (the
second spawn happens about 1.7 seconds after the first, while the character
is inside the invulnerability window opened by the collision at tick 66, so
no expiry event is due and the session is still alive). -/
def sameClockRun : AppState :=
  (List.range 102).foldl
    (fun s k => update ((k + 1) * 16.66) 1000 0 (some (400, 1000000)) s)
    (resetGame 0)

/-! ## Helper lemmas -/

/-- Damage never moves the character vertically. -/
theorem takeDamage_charY (s : AppState) : (takeDamage s).charY = s.charY := by
  simp only [takeDamage]
  split_ifs <;> rfl

/-- Damage never touches the obstacle track. -/
theorem takeDamage_obstacles (s : AppState) :
    (takeDamage s).obstacles = s.obstacles := by
  simp only [takeDamage]
  split_ifs <;> rfl

/-- Case analysis of `takeDamage`: either a no-op (invulnerable), or lives
drop by one, ending the game exactly when they are exhausted. -/
theorem takeDamage_cases (s : AppState) :
    takeDamage s = s ∨
      (s.isInvulnerable = false ∧ (takeDamage s).lives = s.lives - 1 ∧
        (((takeDamage s).gameState = GameState.GAME_OVER ∧ s.lives - 1 ≤ 0) ∨
         ((takeDamage s).gameState = s.gameState ∧ 1 ≤ s.lives - 1))) := by
  simp only [takeDamage]
  split_ifs with h1 h2
  · exact Or.inl rfl
  · exact Or.inr ⟨by simpa using h1, rfl, Or.inl ⟨rfl, h2⟩⟩
  · exact Or.inr ⟨by simpa using h1, rfl, Or.inr ⟨rfl, by omega⟩⟩

example : checkCollision 300 [] 600 400 = false := by with_unfolding_all decide
example : checkCollision (-1) [] 600 400 = true := by with_unfolding_all decide
example : checkCollision 0 [] 600 400 = false := by with_unfolding_all decide
example :
    (update 16.66 7 0 none (resetGame 0)).velocity = 0.6 := by
  with_unfolding_all decide
example :
    (update 16.66 7 0 none (resetGame 0)).charY = 300.6 := by
  with_unfolding_all decide

/-! ## C5: damage while invulnerable is a no-op -/

/-- C5: while the state machine is Invulnerable, a hazard signal
(`takeDamage`) is a no-op: lives, velocity, the invulnerability flag and the
phase are unchanged, and no new invulnerability-expiry timer is armed
(the state, including the timer-arming counter, is exactly the same). -/
theorem invulnerable_damage_noop (s : AppState)
    (h : s.isInvulnerable = true) : takeDamage s = s := by
  simp only [takeDamage]
  rw [if_pos h]

/-- Witness for `invulnerable_damage_noop` at a concrete invulnerable state. -/
theorem invulnerable_damage_noop_witness :
    takeDamage
        { gameState := GameState.PLAYING, score := 4, lives := 2, charY := 100,
          velocity := 7, obstacles := [], isInvulnerable := true, lastTime := 0,
          armedTimers := 1 } =
      { gameState := GameState.PLAYING, score := 4, lives := 2, charY := 100,
        velocity := 7, obstacles := [], isInvulnerable := true, lastTime := 0,
        armedTimers := 1 } :=
  invulnerable_damage_noop _ rfl

/-! ## C10: damage while vulnerable overwrites the velocity with -5 -/

/-- C10: damage taken while Vulnerable with at least two lives remaining
assigns velocity := -5 (discarding whatever velocity had accumulated, for
every starting velocity), keeps the phase, and the magnitude 5 of this
corrective hop is strictly smaller than the jump impulse magnitude 8. -/
theorem damage_recovery_velocity (s : AppState)
    (hinv : s.isInvulnerable = false) (hl : 2 ≤ s.lives) :
    (takeDamage s).velocity = -5 ∧ (takeDamage s).gameState = s.gameState ∧
      ((-5 : ℚ) < 0 ∧ |(-5 : ℚ)| < |JUMP_STRENGTH|) := by
  simp only [takeDamage]
  rw [if_neg (by simp [hinv]), if_neg (by omega)]
  refine ⟨rfl, rfl, by norm_num, ?_⟩
  rw [JUMP_STRENGTH]
  norm_num

/-- Witness for `damage_recovery_velocity`: a character falling fast at
velocity 100 still ends at exactly -5 after damage. -/
theorem damage_recovery_velocity_witness :
    (takeDamage
        { gameState := GameState.PLAYING, score := 0, lives := 3, charY := 500,
          velocity := 100, obstacles := [], isInvulnerable := false,
          lastTime := 0, armedTimers := 0 }).velocity = -5 ∧
      (takeDamage
        { gameState := GameState.PLAYING, score := 0, lives := 3, charY := 500,
          velocity := 100, obstacles := [], isInvulnerable := false,
          lastTime := 0, armedTimers := 0 }).gameState = GameState.PLAYING ∧
      ((-5 : ℚ) < 0 ∧ |(-5 : ℚ)| < |JUMP_STRENGTH|) :=
  damage_recovery_velocity _ rfl (by norm_num)

/-! ## C7: fallback applies only to a missing measurement -/

/-- C7 counterexample: a present but zero-sized measurement is NOT replaced
by the 400×600 default; the tick then computes the spawn position from the
zero width (spawning at x = 50 instead of x = 450). -/
theorem zero_size_fallback_cex :
    getContainerDimensions (some (0, 0)) = (0, 0) ∧
      getContainerDimensions (some (0, 0)) ≠ (400, 600) ∧
      (update 16.66 7 0 (some (0, 0)) (resetGame 0)).obstacles.map (·.x)
        = [50] ∧
      (update 16.66 7 0 none (resetGame 0)).obstacles.map (·.x) = [450] := by
  refine ⟨rfl, by decide, ?_, ?_⟩ <;> with_unfolding_all decide

/-- C7 amended: only a missing playfield measurement (null container ref)
falls back to the fixed default 400×600; a present measurement — even a
zero-sized one — is used exactly as measured. -/
theorem missing_measurement_fallback :
    getContainerDimensions none = ((400 : ℤ), (600 : ℤ)) ∧
      ∀ d : ℤ × ℤ, getContainerDimensions (some d) = d :=
  ⟨rfl, fun _ => rfl⟩

/-! ## C3: floor/ceiling detection -/

/-- C3 counterexample: at `charY = 0` the detector reports NO hazard (the
code tests `charY < 0` strictly), refuting the claimed ``charY ≤ 0`` case;
and at `charY = -5` it reports a hazard even though the padded top edge
(`-5 + 12 = 7`) is not below 0, refuting the claim that the ceiling test
uses the padding-shrunk box. -/
theorem floor_ceiling_cex :
    checkCollision 0 [] 600 400 = false ∧
      checkCollision (-5) [] 600 400 = true ∧ ¬ ((-5 : ℚ) + 12 < 0) := by
  refine ⟨?_, ?_, by norm_num⟩ <;> with_unfolding_all decide

/-- C3 amended: the detector reports a hazard exactly when the RAW top
position `charY` is strictly below 0, or the padding-shrunk bottom edge
`charY + BIRD_SIZE - 12` exceeds the playfield height, or some obstacle
overlapping the padded horizontal extent is breached by the padded
vertical extent.  In particular `charY < 0` (strict, unpadded) forces
hazard regardless of the obstacle list. -/
theorem checkCollision_characterization (y : ℚ) (obs : List Obstacle)
    (gh gw : ℚ) :
    checkCollision y obs gh gw = true ↔
      (y < 0 ∨ y + BIRD_SIZE - 12 > gh ∨
        ∃ o ∈ obs,
          (gw / 2 - BIRD_SIZE / 2 + BIRD_SIZE - 12 > o.x ∧
            gw / 2 - BIRD_SIZE / 2 + 12 < o.x + OBSTACLE_WIDTH) ∧
          (y + 12 < o.topHeight ∨
            y + BIRD_SIZE - 12 > o.topHeight + OBSTACLE_GAP)) := by
  simp only [checkCollision]
  split_ifs with h
  · simp only [true_iff]
    rcases h with h | h
    · exact Or.inl h
    · exact Or.inr (Or.inl h)
  · rw [not_or] at h
    obtain ⟨hy, hb⟩ := h
    simp only [List.any_eq_true, Bool.and_eq_true, decide_eq_true_eq, hy, hb,
      false_or, gt_iff_lt, Bool.or_eq_true]

/-- Witness for `checkCollision_characterization`: the characterization
instantiated at a ceiling breach. -/
theorem checkCollision_characterization_witness :
    checkCollision (-1) [] 600 400 = true :=
  (checkCollision_characterization (-1) [] 600 400).mpr (Or.inl (by norm_num))

/-! ## C9: the collision detector is pure and has no false positives -/

/-- C9: the collision detector is deterministic (identical inputs produce
identical output — it is a function of its four inputs and, in this
embedding, structurally side-effect-free: it returns a `Bool` and no state,
and `update` passes the obstacle list on unchanged around it), and whenever
the padded hitbox lies inside the gap of every horizontally overlapping
obstacle with no floor/ceiling breach, it reports no hazard. -/
theorem checkCollision_pure_no_false_positive :
    (∀ (y₁ y₂ : ℚ) (obs₁ obs₂ : List Obstacle) (h₁ h₂ w₁ w₂ : ℚ),
        y₁ = y₂ → obs₁ = obs₂ → h₁ = h₂ → w₁ = w₂ →
        checkCollision y₁ obs₁ h₁ w₁ = checkCollision y₂ obs₂ h₂ w₂) ∧
    (∀ (y : ℚ) (obs : List Obstacle) (gh gw : ℚ),
        ¬ y < 0 → ¬ y + BIRD_SIZE - 12 > gh →
        (∀ o ∈ obs,
            (gw / 2 - BIRD_SIZE / 2 + BIRD_SIZE - 12 > o.x ∧
              gw / 2 - BIRD_SIZE / 2 + 12 < o.x + OBSTACLE_WIDTH) →
            o.topHeight ≤ y + 12 ∧
              y + BIRD_SIZE - 12 ≤ o.topHeight + OBSTACLE_GAP) →
        checkCollision y obs gh gw = false) := by
  constructor
  · intro y₁ y₂ obs₁ obs₂ h₁ h₂ w₁ w₂ ey eo eh ew
    rw [ey, eo, eh, ew]
  · intro y obs gh gw hy hb hin
    simp only [checkCollision]
    rw [if_neg (by rw [not_or]; exact ⟨hy, hb⟩)]
    simp only [List.any_eq_false, Bool.and_eq_true, decide_eq_true_eq, not_and,
      not_or, gt_iff_lt, Bool.or_eq_true]
    intro o ho hov
    have := hin o ho hov
    constructor
    · exact not_lt.mpr this.1
    · exact not_lt.mpr this.2

/-- Witness for `checkCollision_pure_no_false_positive`: a character at
height 300 inside the gap of an overlapping obstacle, no hazard. -/
theorem checkCollision_pure_no_false_positive_witness :
    checkCollision 300
        [{ id := 1, x := 180, topHeight := 150, width := 64, passed := false }]
        600 400 = false :=
  checkCollision_pure_no_false_positive.2 300
    [{ id := 1, x := 180, topHeight := 150, width := 64, passed := false }]
    600 400 (by norm_num) (by norm_num [BIRD_SIZE])
    (by
      intro o ho hov
      rw [List.mem_singleton] at ho
      subst ho
      norm_num [BIRD_SIZE, OBSTACLE_GAP])

/-! ## C1: scoring -/

/-- The obstacle list after a scoring pass: each obstacle is marked passed
exactly when it already was or its right edge has crossed the character's
left edge. -/
theorem scorePass_fst (w : ℚ) (obs : List Obstacle) (n : ℕ) :
    (scorePass w obs n).1 =
      obs.map fun o =>
        { o with passed := o.passed ||
            decide (o.x + OBSTACLE_WIDTH < w / 2 - BIRD_SIZE / 2) } := by
  induction obs generalizing n with
  | nil => rfl
  | cons o rest ih =>
    by_cases hc : o.passed = false ∧ o.x + OBSTACLE_WIDTH < w / 2 - BIRD_SIZE / 2
    · simp only [scorePass, if_pos hc, List.map_cons, ih]
      simp [hc.1, hc.2]
    · simp only [scorePass, if_neg hc, List.map_cons, ih]
      rw [Decidable.not_and_iff_or_not] at hc
      rcases hc with hc | hc
      · simp only [Bool.not_eq_false] at hc
        simp only [hc, Bool.true_or, List.cons.injEq, and_true]
        rw [← hc]
      · simp [hc]

/-- The score after a scoring pass: the old score plus one per obstacle
newly marked passed. -/
theorem scorePass_snd (w : ℚ) (obs : List Obstacle) (n : ℕ) :
    (scorePass w obs n).2 =
      n + (obs.filter fun o => !o.passed &&
            decide (o.x + OBSTACLE_WIDTH < w / 2 - BIRD_SIZE / 2)).length := by
  induction obs generalizing n with
  | nil => rfl
  | cons o rest ih =>
    by_cases hc : o.passed = false ∧ o.x + OBSTACLE_WIDTH < w / 2 - BIRD_SIZE / 2
    · have hb : (!o.passed &&
          decide (o.x + OBSTACLE_WIDTH < w / 2 - BIRD_SIZE / 2)) = true := by
        simp [hc.1, hc.2]
      simp only [scorePass, if_pos hc, List.filter_cons, hb, if_true,
        List.length_cons, ih]
      omega
    · have hb : (!o.passed &&
          decide (o.x + OBSTACLE_WIDTH < w / 2 - BIRD_SIZE / 2)) = false := by
        rw [Decidable.not_and_iff_or_not] at hc
        rcases hc with hc | hc
        · simp only [Bool.not_eq_false] at hc
          simp [hc]
        · simp [hc]
      simp only [scorePass, if_neg hc, List.filter_cons, hb, ih]
      simp

/-- A second scoring pass over the already-marked list changes nothing:
each obstacle contributes to the score at most once. -/
theorem scorePass_idem (w : ℚ) (obs : List Obstacle) (n : ℕ) :
    scorePass w (scorePass w obs n).1 (scorePass w obs n).2 =
      scorePass w obs n := by
  apply Prod.ext
  · rw [scorePass_fst w _ _, scorePass_fst w obs n, List.map_map]
    apply List.map_congr_left
    intro o _
    simp only [Function.comp_apply]
    cases hp : o.passed <;>
      cases hd : decide (o.x + OBSTACLE_WIDTH < w / 2 - BIRD_SIZE / 2) <;>
        simp [hp, hd]
  · rw [scorePass_snd w _ _, scorePass_fst w obs n]
    have hnil : ((obs.map fun o =>
        { o with passed := o.passed ||
            decide (o.x + OBSTACLE_WIDTH < w / 2 - BIRD_SIZE / 2) }).filter
          fun o => !o.passed &&
            decide (o.x + OBSTACLE_WIDTH < w / 2 - BIRD_SIZE / 2)) = [] := by
      rw [List.filter_eq_nil_iff]
      intro a ha
      rw [List.mem_map] at ha
      obtain ⟨o, _, rfl⟩ := ha
      cases hd : decide (o.x + OBSTACLE_WIDTH < w / 2 - BIRD_SIZE / 2) <;>
        simp [hd]
    rw [hnil]
    rfl

/-- Damage never changes the score. -/
theorem takeDamage_score (s : AppState) : (takeDamage s).score = s.score := by
  simp only [takeDamage]
  split_ifs <;> rfl

/-- A whole tick never decreases the score. -/
theorem update_score_mono (time now r : ℚ) (m : Option (ℤ × ℤ))
    (s : AppState) : s.score ≤ (update time now r m s).score := by
  simp only [update]
  split
  · exact le_refl _
  · simp only [scorePass_snd]
    split
    · rw [takeDamage_score]
      exact Nat.le_add_right _ _
    · exact Nat.le_add_right _ _

/-- C1 counterexample: an unpassed obstacle at x = 110 whose trailing edge
(174) has crossed the character's horizontal center (playfield width / 2 =
200) is NOT marked passed by a scoring pass and the score does not change —
the code compares against the character's left edge
(width / 2 - BIRD_SIZE / 2) instead of the center. -/
theorem scoring_center_threshold_cex :
    ((110 : ℚ) + OBSTACLE_WIDTH < 400 / 2) ∧
      scorePass 400
          [{ id := 1, x := 110, topHeight := 80, width := 64, passed := false }]
          5 =
        ([{ id := 1, x := 110, topHeight := 80, width := 64, passed := false }],
          5) := by
  constructor <;> with_unfolding_all decide

/-- C1 amended: one tick's scoring pass marks an obstacle passed exactly
when it already was passed or its trailing (right) edge has strictly
crossed the character's LEFT edge (playfield width / 2 - BIRD_SIZE / 2,
not the center width / 2); the score grows by exactly 1 per newly marked
obstacle, is monotonically non-decreasing, a repeated pass adds nothing
(each obstacle contributes at most once), and a whole tick never decreases
the score. -/
theorem scoring_pass_left_edge (w : ℚ) (obs : List Obstacle) (n : ℕ) :
    ((scorePass w obs n).1 =
        obs.map (fun o =>
          { o with passed := o.passed ||
              decide (o.x + OBSTACLE_WIDTH < w / 2 - BIRD_SIZE / 2) }) ∧
      (scorePass w obs n).2 =
        n + (obs.filter fun o => !o.passed &&
              decide (o.x + OBSTACLE_WIDTH < w / 2 - BIRD_SIZE / 2)).length ∧
      n ≤ (scorePass w obs n).2 ∧
      scorePass w (scorePass w obs n).1 (scorePass w obs n).2 =
        scorePass w obs n) ∧
    ∀ (time now r : ℚ) (m : Option (ℤ × ℤ)) (s : AppState),
      s.score ≤ (update time now r m s).score := by
  refine ⟨⟨scorePass_fst w obs n, scorePass_snd w obs n, ?_,
    scorePass_idem w obs n⟩, fun time now r m s => update_score_mono _ _ _ _ _⟩
  rw [scorePass_snd w obs n]
  exact Nat.le_add_right _ _

/-! ## C4: the physics integrator -/

/-- C4: in the PLAYING phase, with normalized delta
dt = min(time - lastTime, 32) / 16.66, one tick computes
velocity1 = v + GRAVITY·dt and the new position y + velocity1·dt (the
position update always survives the whole tick; the velocity update
survives whenever the tick detects no hazard). -/
theorem physics_integrator (time now r : ℚ) (m : Option (ℤ × ℤ))
    (s : AppState) (hp : s.gameState = GameState.PLAYING) :
    (update time now r m s).charY =
      s.charY +
        (s.velocity + GRAVITY * (min (time - s.lastTime) 32 / 16.66)) *
          (min (time - s.lastTime) 32 / 16.66) ∧
    (checkCollision
        (s.charY +
          (s.velocity + GRAVITY * (min (time - s.lastTime) 32 / 16.66)) *
            (min (time - s.lastTime) 32 / 16.66))
        (advanceObstacles (min (time - s.lastTime) 32 / 16.66) now r
          ((getContainerDimensions m).1 : ℚ) ((getContainerDimensions m).2 : ℚ)
          s.obstacles)
        ((getContainerDimensions m).2 : ℚ)
        ((getContainerDimensions m).1 : ℚ) = false →
      (update time now r m s).velocity =
        s.velocity + GRAVITY * (min (time - s.lastTime) 32 / 16.66)) := by
  constructor
  · simp only [update, hp]
    rw [if_neg (by simp)]
    split
    · rw [takeDamage_charY]
    · rfl
  · intro hcol
    simp only [update, hp]
    rw [if_neg (by simp)]
    rw [if_neg (by simp [hcol])]

/-- Witness for `physics_integrator`: the fresh-session scenario — one tick
with dt = 1 (time advances by exactly 16.66) from velocity 0 makes the
velocity `GRAVITY` and raises the position by exactly `GRAVITY`. -/
theorem physics_integrator_witness :
    ((update 16.66 7 0 none (resetGame 0)).charY =
        (resetGame 0).charY +
          ((resetGame 0).velocity +
              GRAVITY * (min (16.66 - (resetGame 0).lastTime) 32 / 16.66)) *
            (min (16.66 - (resetGame 0).lastTime) 32 / 16.66) ∧
      (update 16.66 7 0 none (resetGame 0)).velocity =
        (resetGame 0).velocity +
          GRAVITY * (min (16.66 - (resetGame 0).lastTime) 32 / 16.66)) ∧
    (update 16.66 7 0 none (resetGame 0)).velocity = GRAVITY ∧
    (update 16.66 7 0 none (resetGame 0)).charY = 300 + GRAVITY := by
  have h := physics_integrator 16.66 7 0 none (resetGame 0) rfl
  refine ⟨⟨h.1, h.2 (by with_unfolding_all decide)⟩, ?_, ?_⟩ <;>
    with_unfolding_all decide

/-! ## C2: lives are non-increasing, bounded, and game over halts ticking -/

/-- Per-tick effect on lives and phase: either both unchanged, or (only in
the PLAYING phase) lives drop by one, with the phase becoming GAME_OVER
exactly when they are exhausted. -/
theorem update_lives_cases (time now r : ℚ) (m : Option (ℤ × ℤ))
    (s : AppState) :
    ((update time now r m s).lives = s.lives ∧
      (update time now r m s).gameState = s.gameState) ∨
    (s.gameState = GameState.PLAYING ∧
      (update time now r m s).lives = s.lives - 1 ∧
      (((update time now r m s).gameState = GameState.GAME_OVER ∧
          s.lives - 1 ≤ 0) ∨
       ((update time now r m s).gameState = s.gameState ∧
          1 ≤ s.lives - 1))) := by
  simp only [update]
  split
  · exact Or.inl ⟨rfl, rfl⟩
  · rename_i h
    have hp : s.gameState = GameState.PLAYING := by
      by_contra hne
      exact h hne
    split
    · rename_i hcol
      rcases takeDamage_cases
          { s with
              velocity := s.velocity +
                GRAVITY * (min (time - s.lastTime) 32 / 16.66),
              charY := s.charY +
                (s.velocity + GRAVITY * (min (time - s.lastTime) 32 / 16.66)) *
                  (min (time - s.lastTime) 32 / 16.66),
              obstacles := advanceObstacles (min (time - s.lastTime) 32 / 16.66)
                now r ((getContainerDimensions m).1 : ℚ)
                ((getContainerDimensions m).2 : ℚ) s.obstacles,
              lastTime := time } with hd | hd
      · rw [hd]
        exact Or.inl ⟨rfl, rfl⟩
      · exact Or.inr ⟨hp, hd.2.1, hd.2.2⟩
    · exact Or.inl ⟨rfl, rfl⟩

/-- A jump request never touches lives or phase. -/
theorem jump_lives (s : AppState) :
    (jump s).lives = s.lives ∧ (jump s).gameState = s.gameState := by
  simp only [jump]
  split <;> exact ⟨rfl, rfl⟩

/-- The invulnerability-expiry event never touches lives or phase. -/
theorem expireInvuln_lives (s : AppState) :
    (expireInvuln s).lives = s.lives ∧
      (expireInvuln s).gameState = s.gameState :=
  ⟨rfl, rfl⟩

/-- Every reachable state satisfies the lives/phase safety invariant. -/
theorem reachable_livesInv {s : AppState} (h : Reachable s) : LivesInv s := by
  induction h with
  | init t0 =>
    refine ⟨by norm_num [resetGame, TOTAL_LIVES],
      by norm_num [resetGame, TOTAL_LIVES], ?_, ?_⟩
    · intro
      norm_num [resetGame, TOTAL_LIVES]
    · intro h0
      norm_num [resetGame, TOTAL_LIVES] at h0
  | @step s1 s2 hr hstep ih =>
    obtain ⟨ih1, ih2, ih3, ih4⟩ := ih
    cases hstep with
    | tick time now r m =>
      rcases update_lives_cases time now r m s1 with ⟨h1, h2⟩ | ⟨hp, h1, h2⟩
      · refine ⟨by omega, by omega, ?_, ?_⟩
        · intro hg
          rw [h1]
          exact ih3 (h2 ▸ hg)
        · intro h0
          rw [h2]
          exact ih4 (by omega)
      · have hl1 : 1 ≤ s1.lives := ih3 hp
        rcases h2 with ⟨hgo, hle⟩ | ⟨hsame, hge⟩
        · refine ⟨by omega, by omega, ?_, fun _ => hgo⟩
          intro hg
          rw [hgo] at hg
          exact absurd hg (by decide)
        · refine ⟨by omega, by omega, ?_, ?_⟩
          · intro hg
            rw [h1]
            omega
          · intro h0
            rw [h1] at h0
            exact absurd h0 (by omega)
    | jump =>
      obtain ⟨h1, h2⟩ := jump_lives s1
      refine ⟨by omega, by omega, ?_, ?_⟩
      · intro hg
        rw [h1]
        exact ih3 (h2 ▸ hg)
      · intro h0
        rw [h2]
        exact ih4 (by omega)
    | expire =>
      obtain ⟨h1, h2⟩ := expireInvuln_lives s1
      refine ⟨by omega, by omega, ?_, ?_⟩
      · intro hg
        rw [h1]
        exact ih3 (h2 ▸ hg)
      · intro h0
        rw [h2]
        exact ih4 (by omega)

/-- C2: in every reachable session state, lives lie in [0, TOTAL_LIVES];
any further tick can only keep or decrease them; lives 0 forces the
GAME_OVER phase (entered exactly once — it is absorbing by the last
conjunct); and in GAME_OVER every tick is the identity, so the simulation
no longer advances. -/
theorem lives_bounded_monotone_halt (s : AppState) (hs : Reachable s) :
    (0 ≤ s.lives ∧ s.lives ≤ TOTAL_LIVES) ∧
    (∀ (time now r : ℚ) (m : Option (ℤ × ℤ)),
        (update time now r m s).lives ≤ s.lives) ∧
    (s.lives = 0 → s.gameState = GameState.GAME_OVER) ∧
    (s.gameState = GameState.GAME_OVER →
        ∀ (time now r : ℚ) (m : Option (ℤ × ℤ)), update time now r m s = s) := by
  have ih := reachable_livesInv hs
  refine ⟨⟨ih.1, ih.2.1⟩, ?_, ih.2.2.2, ?_⟩
  · intro time now r m
    rcases update_lives_cases time now r m s with ⟨h1, _⟩ | ⟨_, h1, _⟩ <;> omega
  · intro hgo time now r m
    simp only [update]
    rw [if_pos (by rw [hgo]; decide)]

/-- Witness for `lives_bounded_monotone_halt` at the freshly reset state. -/
theorem lives_bounded_monotone_halt_witness :
    (0 ≤ (resetGame 0).lives ∧ (resetGame 0).lives ≤ TOTAL_LIVES) ∧
      (update 16.66 7 0 none (resetGame 0)).lives ≤ (resetGame 0).lives := by
  have h := lives_bounded_monotone_halt (resetGame 0) (Reachable.init 0)
  exact ⟨h.1, h.2.1 16.66 7 0 none⟩

/-! ## C6: spawned obstacle height bounds -/

/-- C6 counterexample: on a 300-pixel-tall playfield a perfectly legitimate
random draw r = 1/2 spawns an obstacle with topHeight 30 < minHeight 80
(the draw interval [minHeight, playfieldHeight - gap - minHeight] is empty
there and the code clamps nothing). -/
theorem spawn_bounds_small_playfield_cex :
    ((0 : ℚ) ≤ 1 / 2 ∧ (1 / 2 : ℚ) < 1) ∧
      (update 16.66 7 (1 / 2) (some (400, 300)) (resetGame 0)).obstacles.map
          (·.topHeight) = [30] ∧
      ¬ ((80 : ℚ) ≤ 30) := by
  refine ⟨by norm_num, ?_, by norm_num⟩
  with_unfolding_all decide

/-- C6 amended: provided the playfield is at least 2·minHeight + gap = 400
pixels tall (so the draw interval is nonempty — the 400×600 default and any
usual phone-sized playfield qualify) and the random draw lies in [0,1) as
`Math.random()` guarantees, every obstacle present after the spawn phase
either keeps the topHeight of an obstacle already on the track or is the
fresh spawn with topHeight in [minHeight, playfieldHeight - gap -
minHeight] = [80, h - 320]. -/
theorem spawn_topHeight_bounds (dt now r w : ℚ) (hz : ℤ)
    (obs : List Obstacle) (hr0 : 0 ≤ r) (hr1 : r < 1) (hh : 400 ≤ hz) :
    ∀ o ∈ advanceObstacles dt now r w (hz : ℚ) obs,
      (∃ p ∈ obs, o.topHeight = p.topHeight) ∨
      (80 ≤ o.topHeight ∧ o.topHeight + OBSTACLE_GAP ≤ (hz : ℚ) - 80) := by
  have hhq : (400 : ℚ) ≤ (hz : ℚ) := by exact_mod_cast hh
  intro o ho
  have hkept : ∀ q ∈ (obs.map fun p =>
        { p with x := p.x - OBSTACLE_SPEED * dt }).filter
          (fun p => decide (p.x + OBSTACLE_WIDTH > -100)),
      ∃ p ∈ obs, q.topHeight = p.topHeight := by
    intro q hq
    have hq2 := (List.mem_filter.1 hq).1
    rw [List.mem_map] at hq2
    obtain ⟨p, hp, rfl⟩ := hq2
    exact ⟨p, hp, rfl⟩
  simp only [advanceObstacles] at ho
  split at ho
  · rw [List.mem_append] at ho
    rcases ho with ho | ho
    · exact Or.inl (hkept o ho)
    · rw [List.mem_singleton] at ho
      subst ho
      have hR : (0 : ℚ) < (hz : ℚ) - OBSTACLE_GAP - 80 - 80 + 1 := by
        rw [OBSTACLE_GAP]
        linarith
      have h0 : (0 : ℤ) ≤ ⌊r * ((hz : ℚ) - OBSTACLE_GAP - 80 - 80 + 1)⌋ :=
        Int.floor_nonneg.mpr (mul_nonneg hr0 (le_of_lt hR))
      have h0q : (0 : ℚ) ≤
          ((⌊r * ((hz : ℚ) - OBSTACLE_GAP - 80 - 80 + 1)⌋ : ℤ) : ℚ) := by
        exact_mod_cast h0
      have hlt : ⌊r * ((hz : ℚ) - OBSTACLE_GAP - 80 - 80 + 1)⌋ <
          hz - 399 := by
        apply Int.floor_lt.mpr
        have h2 := mul_lt_mul_of_pos_right hr1 hR
        rw [one_mul] at h2
        push_cast
        rw [OBSTACLE_GAP] at h2 ⊢
        linarith
      have hle : (((⌊r * ((hz : ℚ) - OBSTACLE_GAP - 80 - 80 + 1)⌋ : ℤ)) : ℚ) ≤
          (hz : ℚ) - 400 := by
        have h3 : ⌊r * ((hz : ℚ) - OBSTACLE_GAP - 80 - 80 + 1)⌋ ≤ hz - 400 := by
          omega
        exact_mod_cast h3
      refine Or.inr ⟨?_, ?_⟩
      · simp only
        linarith
      · simp only
        rw [show OBSTACLE_GAP = (240 : ℚ) from rfl] at hle ⊢
        linarith
  · exact Or.inl (hkept o ho)

/-- Witness for `spawn_topHeight_bounds`: the obstacle spawned on an empty
track over the default 400×600 playfield with draw 0 gets topHeight 80,
inside [80, 600 - 320]. -/
theorem spawn_topHeight_bounds_witness :
    (∃ p ∈ ([] : List Obstacle),
        (⟨7, 450, 80, 64, false⟩ : Obstacle).topHeight = p.topHeight) ∨
      (80 ≤ (⟨7, 450, 80, 64, false⟩ : Obstacle).topHeight ∧
        (⟨7, 450, 80, 64, false⟩ : Obstacle).topHeight + OBSTACLE_GAP ≤
          (((600 : ℤ)) : ℚ) - 80) :=
  spawn_topHeight_bounds 1 7 0 400 600 [] (by norm_num) (by norm_num)
    (by norm_num) _ (by with_unfolding_all decide)

/-! ## C8: obstacle identifier uniqueness -/

/-- The scoring pass never changes the identifiers on the track. -/
theorem scorePass_map_id (w : ℚ) (obs : List Obstacle) (n : ℕ) :
    ((scorePass w obs n).1).map (·.id) = obs.map (·.id) := by
  rw [scorePass_fst, List.map_map]
  exact List.map_congr_left fun o _ => rfl

/-- The identifiers present after the obstacle phase of a tick are among
the previous identifiers plus the tick's `Date.now()` reading. -/
theorem advanceObstacles_ids_sublist (dt now r w h : ℚ)
    (obs : List Obstacle) :
    List.Sublist ((advanceObstacles dt now r w h obs).map (·.id))
      (obs.map (·.id) ++ [now]) := by
  have hkept : List.Sublist (((obs.map fun o =>
        { o with x := o.x - OBSTACLE_SPEED * dt }).filter
          fun o => decide (o.x + OBSTACLE_WIDTH > -100)).map (·.id))
      (obs.map (·.id)) := by
    have h2 := (List.filter_sublist
      (l := obs.map fun o => { o with x := o.x - OBSTACLE_SPEED * dt })
      (p := fun o => decide (o.x + OBSTACLE_WIDTH > -100))).map (·.id)
    rw [List.map_map] at h2
    rwa [List.map_congr_left fun (o : Obstacle) _ => rfl] at h2
  simp only [advanceObstacles]
  split
  · rw [List.map_append]
    exact List.Sublist.append hkept (List.Sublist.refl _)
  · exact hkept.trans (List.sublist_append_left _ _)

/-- The identifiers present after one whole tick are among the previous
identifiers plus the tick's `Date.now()` reading. -/
theorem update_ids_sublist (time now r : ℚ) (m : Option (ℤ × ℤ))
    (s : AppState) :
    List.Sublist ((update time now r m s).obstacles.map (·.id))
      (s.obstacles.map (·.id) ++ [now]) := by
  simp only [update]
  split
  · exact List.sublist_append_left _ _
  · simp only [scorePass_map_id]
    split
    · rw [takeDamage_obstacles]
      exact advanceObstacles_ids_sublist _ _ _ _ _ _
    · exact advanceObstacles_ids_sublist _ _ _ _ _ _

/-- C8 counterexample: a realistic 102-tick session (16.66 ms frames over a
400×1000000 playfield; the collision at tick 66 opens a 2000 ms
invulnerability window that covers the remaining 600 ms, so the session
stays alive with 2 lives) in which `Date.now()` returns 1000 at both spawn
ticks ends with two distinct obstacles (x = 96.5 and x = 450) carrying the
SAME identifier 1000 — identifier uniqueness fails for this tick/clock
sequence. -/
theorem duplicate_obstacle_ids_cex :
    sameClockRun.obstacles.map (·.id) = [1000, 1000] ∧
      ¬ (sameClockRun.obstacles.map (·.id)).Nodup ∧
      sameClockRun.obstacles.map (·.x) = [193 / 2, 450] := by
  refine ⟨?_, ?_, ?_⟩ <;> with_unfolding_all decide

/-- C8 amended: identifiers are the `Date.now()` readings of the spawn
ticks, so they stay pairwise distinct exactly as long as the clock readings
do: a tick whose reading differs from every identifier already on the
track preserves distinctness (and at most one obstacle spawns per tick);
two spawn ticks that read the same clock value produce colliding
identifiers. -/
theorem obstacle_ids_nodup_preserved (time now r : ℚ) (m : Option (ℤ × ℤ))
    (s : AppState) (hnd : (s.obstacles.map (·.id)).Nodup)
    (hfresh : now ∉ s.obstacles.map (·.id)) :
    ((update time now r m s).obstacles.map (·.id)).Nodup := by
  refine List.Nodup.sublist (update_ids_sublist time now r m s) ?_
  rw [List.nodup_append]
  refine ⟨hnd, List.nodup_singleton _, ?_⟩
  intro a ha hb
  rw [List.mem_singleton] at hb
  subst hb
  exact hfresh ha

/-- Witness for `obstacle_ids_nodup_preserved`: a fresh clock reading 3
keeps the ids of a one-obstacle track distinct through a tick. -/
theorem obstacle_ids_nodup_preserved_witness :
    ((update 16.66 3 0 none
        { gameState := GameState.PLAYING, score := 0, lives := 3,
          charY := 300, velocity := 0,
          obstacles := [⟨1, 300, 80, 64, false⟩],
          isInvulnerable := false, lastTime := 0,
          armedTimers := 0 }).obstacles.map (·.id)).Nodup :=
  obstacle_ids_nodup_preserved 16.66 3 0 none _
    (by with_unfolding_all decide) (by with_unfolding_all decide)
